import Mathlib

/-!
Verification of the UniLife session-backed authentication boundary.

The development shallowly embeds the backend auth controller
(`src/backend/controllers/authController.js`), the defensive server variant of
`src/server.js` (session cookie configuration, route mounting, 404 handler and
the centralized error-handling middleware), and the browser client
(`src/frontend/src/api/authApi.js`, `src/frontend/src/context/AuthContext.js`).

Modelling conventions:
- The relational users table is a list of rows; the session store is a list of
  session records carried in an explicit server state.
- The bcrypt verifier is an abstract parameter `compare : String → String → Bool`
  (the code only observes its boolean outcome).
- HTTP request body fields that may be absent are `Option String`.
- Session identifiers are allocated from a monotone counter, standing for the
  fresh opaque identifiers express-session generates per successful login.
- Timestamps are milliseconds as `Nat`.
-/

namespace UniLife

/-- One row of the `users` table: `SELECT *` returns id, username,
password (the stored bcrypt hash) and email. -/
structure User where
  id : Nat
  username : String
  password : String
  email : String
  deriving DecidableEq

/-- The snapshot written to `req.session.user` on login:
`{ id: user.id, username: user.username, email: user.email }`. -/
structure UserSnapshot where
  id : Nat
  username : String
  email : String
  deriving DecidableEq

/-- A record in the session store: identifier, the `user` payload, and the
expiry derived from the cookie `maxAge`. -/
structure Session where
  sid : Nat
  user : UserSnapshot
  expiresAt : Nat
  deriving DecidableEq

/-- Server-side state: the users table, the persisted sessions, and the
counter from which fresh session identifiers are drawn. -/
structure AuthState where
  users : List User
  sessions : List Session
  nextSid : Nat
  deriving DecidableEq

/-- `cookie.maxAge = 1000 * 60 * 60 * 24` from the defensive `server.js`
session configuration. -/
def sessionMaxAgeMs : Nat := 1000 * 60 * 60 * 24

/-- Body of a login request; either field may be missing. -/
structure LoginRequest where
  username : Option String
  password : Option String
  deriving DecidableEq

/-- JSON response shape used by the auth endpoints and the 404 handler:
a status plus the optional `message`, `user` and `error` fields. -/
structure HttpResponse where
  status : Nat
  message : Option String
  user : Option UserSnapshot
  error : Option String
  deriving DecidableEq

/-- The user lookup `SELECT * FROM users WHERE username = ?` followed by
`rows[0]`: the first row whose username equals the submitted one.
Modelled from the spec: the database driver is not part of src/; per the
spec's description of `MalformedInput`, a query issued with a missing
username matches no row (`none == some _` is `false`). -/
def findUser (req : LoginRequest) (st : AuthState) : Option User :=
  st.users.find? (fun u => req.username == some u.username)

/-- The snapshot copied from the user row at login time. -/
def snapshotOf (u : User) : UserSnapshot :=
  { id := u.id, username := u.username, email := u.email }

/-- `bcrypt.compare(password, user.password)` with the verifier abstracted;
modelled from the spec: the verifier is not part of src/, and an absent
submitted password never verifies against a stored hash. -/
def passwordMatches (compare : String → String → Bool) (req : LoginRequest)
    (u : User) : Bool :=
  match req.password with
  | none => false
  | some p => compare p u.password

/-- `exports.login`: look the user up by username; 400 "Kullanıcı bulunamadı"
when no row matches; 400 "Şifre hatalı" when the password does not verify;
otherwise store the snapshot in a fresh session (expiring after the cookie
`maxAge`) and answer 200 with the message and the snapshot. -/
def login (compare : String → String → Bool) (now : Nat) (req : LoginRequest)
    (st : AuthState) : HttpResponse × AuthState :=
  match findUser req st with
  | none =>
      ({ status := 400, message := some "Kullanıcı bulunamadı",
         user := none, error := none }, st)
  | some user =>
      if passwordMatches compare req user then
        let snap := snapshotOf user
        let sess : Session :=
          { sid := st.nextSid, user := snap, expiresAt := now + sessionMaxAgeMs }
        ({ status := 200, message := some "Giriş başarılı",
           user := some snap, error := none },
         { st with sessions := sess :: st.sessions, nextSid := st.nextSid + 1 })
      else
        ({ status := 400, message := some "Şifre hatalı",
           user := none, error := none }, st)

/-- Resolution of `req.session.user` by the session middleware: the stored,
unexpired session matching the request's cookie, if any. -/
def sessionLookup (now : Nat) (sid : Option Nat) (st : AuthState) :
    Option UserSnapshot :=
  (st.sessions.find? (fun s => sid == some s.sid && decide (now < s.expiresAt))).map
    Session.user

/-- `exports.me`: 401 "Giriş yapılmamış" when the request's session holds no
user; otherwise 200 with `{ user }`. Reads no state besides the session. -/
def me (now : Nat) (sid : Option Nat) (st : AuthState) : HttpResponse :=
  match sessionLookup now sid st with
  | none =>
      { status := 401, message := some "Giriş yapılmamış",
        user := none, error := none }
  | some snap =>
      { status := 200, message := none, user := some snap, error := none }

/-- `exports.logout`: destroy the request's session unconditionally and
answer 200 "Çıkış yapıldı" from the destroy callback. -/
def logout (sid : Option Nat) (st : AuthState) : HttpResponse × AuthState :=
  ({ status := 200, message := some "Çıkış yapıldı", user := none, error := none },
   { st with sessions := st.sessions.filter (fun s => !(sid == some s.sid)) })

/-! Centralized error-handling middleware of the defensive `server.js`. -/

/-- A value reaching the error middleware. `isObj` is false for non-object
throws; `status` is `some s` exactly when `err.status` is a JS integer
(non-integers and absence are both `none`, since `Number.isInteger` rejects
them alike); `message`, `details` and `stack` are absent-or-string fields;
`coerced` records what the string coercion of a non-object value combined
with the "Bilinmeyen hata" fallback yields. -/
structure ErrVal where
  isObj : Bool
  status : Option Int
  name : String
  message : Option String
  details : Option String
  stack : Option String
  coerced : String
  deriving DecidableEq

/-- The client-facing payload built by the middleware: a status code with
`{ message, details? }` and nothing else — in particular no stack field. -/
structure ErrResponse where
  status : Int
  message : String
  details : Option String
  deriving DecidableEq

/-- The fixed generic message sent for server errors. -/
def genericServerError : String :=
  "Sunucu hatası oluştu. Lütfen daha sonra tekrar deneyin."

/-- The defensive step wrapping a non-object throw in a fresh Error whose
message is the string coercion; a fresh Error has name "Error", no status
and no details. The fresh stack trace is irrelevant to the response, which
never reads the stack. -/
def normalizeErr (e : ErrVal) : ErrVal :=
  if e.isObj then e
  else
    { isObj := true, status := none, name := "Error", message := some e.coerced,
      details := none, stack := e.stack, coerced := e.coerced }

/-- The status computation: `err.status && Number.isInteger(err.status)`
selects `err.status` only when it is a truthy (nonzero) integer; otherwise
400 for `name === ValidationError` and 500 otherwise. -/
def errStatusOf (e : ErrVal) : Int :=
  match e.status with
  | some s =>
      if s != 0 then s
      else if e.name == "ValidationError" then 400 else 500
  | none => if e.name == "ValidationError" then 400 else 500

/-- The error middleware: normalize the value, pick the status, send the
generic message for statuses at least 500 and otherwise the error's message
(with the "İstek hatalı" fallback for an absent or empty one), and attach
`details` only for a 4xx status carrying a truthy details field. -/
def errorHandler (err : ErrVal) : ErrResponse :=
  let e := normalizeErr err
  let status := errStatusOf e
  let msg : String :=
    if 500 ≤ status then genericServerError
    else
      match e.message with
      | some m => if m != "" then m else "İstek hatalı"
      | none => "İstek hatalı"
  let payload : ErrResponse := { status := status, message := msg, details := none }
  if 400 ≤ status ∧ status < 500 then
    match e.details with
    | some d => if d != "" then { payload with details := some d } else payload
    | none => payload
  else payload

/-! Request routing of the defensive `server.js` variant. -/

/-- Character-level prefix test on strings (kernel-friendly). -/
def strStartsWith (s p : String) : Bool := p.data.isPrefixOf s.data

/-- Character-level drop on strings (kernel-friendly). -/
def strDropChars (s : String) (n : Nat) : String := ⟨s.data.drop n⟩

/-- The origin the client API module targets. -/
def clientOrigin : String := "http://localhost:5000"

/-- `API_URL = http://localhost:5000/auth` from `authApi.js`. -/
def API_URL : String := clientOrigin ++ "/auth"

/-- The request path of an absolute URL on the client's origin: the URL
with the origin removed. -/
def urlPath (u : String) : String :=
  if strStartsWith u clientOrigin then strDropChars u clientOrigin.length else u

/-- A request as issued by the client API module: HTTP method and URL. -/
structure ClientRequest where
  method : String
  url : String
  deriving DecidableEq

/-- The three requests `authApi.js` can issue: POST `API_URL`/login,
POST `API_URL`/logout, GET `API_URL`/me. -/
def clientRequests : List ClientRequest :=
  [ { method := "POST", url := API_URL ++ "/login" },
    { method := "POST", url := API_URL ++ "/logout" },
    { method := "GET", url := API_URL ++ "/me" } ]

/-- Where the defensive server's middleware stack sends a request: the auth
router (mounted at /api/auth), the health-check route, or the 404 handler. -/
inductive Dispatch where
  | authRoutes (subpath : String)
  | health
  | notFound
  deriving DecidableEq

/-- The defensive server's routing: `app.use(/api/auth, authRoutes)`
matches the mount point itself or any path below it; `app.get(/)` matches
the health check; everything else falls through to the 404 handler. -/
def defensiveDispatch (method path : String) : Dispatch :=
  if path == "/api/auth" || strStartsWith path "/api/auth/" then
    Dispatch.authRoutes (strDropChars path "/api/auth".length)
  else if method == "GET" && path == "/" then Dispatch.health
  else Dispatch.notFound

/-- The 404 handler's response: `res.status(404).json(...)` with the error
field "Endpoint bulunamadı". -/
def notFoundResponse : HttpResponse :=
  { status := 404, message := none, user := none,
    error := some "Endpoint bulunamadı" }

/-! Browser client: `src/frontend/src/api/authApi.js` and
`src/frontend/src/context/AuthContext.js`. -/

/-- The data `describeError` extracts from an axios error: the optional
response status, request method and URL, the optional server-supplied
message (`response.data.message ?? response.data.error`), and the error's
own message. -/
structure NetErr where
  status : Option Nat
  method : Option String
  url : Option String
  serverMessage : Option String
  message : String
  deriving DecidableEq

/-- `describeError`: joins with spaces the segments that are truthy — the
fixed action header, URL, uppercased method, HTTP status (0 is falsy),
server message, and the closing description. -/
def describeError (err : NetErr) (action : String) : String :=
  String.intercalate " " (List.filterMap id
    [ some (action ++ " sırasında hata oluştu."),
      err.url.bind (fun u => if u != "" then some ("URL: " ++ u) else none),
      err.method.bind (fun m => if m != "" then some ("Metot: " ++ m.toUpper) else none),
      err.status.bind (fun s => if s != 0 then some ("HTTP durumu: " ++ toString s) else none),
      err.serverMessage.bind (fun m => if m != "" then some ("Sunucu mesajı: " ++ m) else none),
      some ("Açıklama: " ++ err.message) ])

/-- `logoutUser`: forwards the network outcome, converting a failure into
the thrown `describeError` string for the "logout" action. -/
def logoutUser (net : Except NetErr Unit) : Except String Unit :=
  match net with
  | Except.ok a => Except.ok a
  | Except.error e => Except.error (describeError e "logout")

/-- `getCurrentUser`: returns `res.data.user` on success and otherwise
throws the `describeError` string for the "fetch current user" action. -/
def getCurrentUser (net : Except NetErr UserSnapshot) : Except String UserSnapshot :=
  match net with
  | Except.ok u => Except.ok u
  | Except.error e => Except.error (describeError e "fetch current user")

/-- The AuthContext state: the cached current user, initially absent. -/
structure ClientState where
  user : Option UserSnapshot
  deriving DecidableEq

/-- `useState(null)`: the cached user starts absent. -/
def clientInit : ClientState := { user := none }

/-- The context's `logout`: `await logoutUser()` then `setUser(null)`.
When the awaited call throws, the rejection propagates (first component)
and `setUser` is never reached, leaving the cached user as it was. -/
def clientLogout (net : Except NetErr Unit) (st : ClientState) :
    Option String × ClientState :=
  match logoutUser net with
  | Except.ok _ => (none, { st with user := none })
  | Except.error s => (some s, st)

/-- The context's `fetchUser`: `await getCurrentUser()` then `setUser`.
When the awaited call throws, the rejection propagates and the cached user
is left as it was. -/
def fetchUser (net : Except NetErr UserSnapshot) (st : ClientState) :
    Option String × ClientState :=
  match getCurrentUser net with
  | Except.ok u => (none, { st with user := some u })
  | Except.error s => (some s, st)

/-- The mount effect `useEffect(() => { fetchUser(); }, [])`: it runs
`fetchUser` from the initial state and discards the returned promise, so
only the resulting state is observable by the application. -/
def onMount (net : Except NetErr UserSnapshot) : ClientState :=
  (fetchUser net clientInit).2

/-! Concrete fixtures used by witness and counterexample theorems. -/

/-- A failed network outcome for the client calls. -/
def netErrW : NetErr :=
  { status := some 500, method := some "post", url := some "http://localhost:5000/auth/logout",
    serverMessage := none, message := "Network Error" }

/-- An error object whose `status` field is the integer 0: `0` is falsy in
JS, so the middleware's truthiness guard discards it. -/
def errZeroStatus : ErrVal :=
  { isObj := true, status := some 0, name := "SomeError", message := some "boom",
    details := none, stack := some "trace", coerced := "" }

/-- An error object with a truthy integer status, a message, and details. -/
def errClientW : ErrVal :=
  { isObj := true, status := some 404, name := "NotFoundError",
    message := some "kayıt yok", details := some "kimlik bilinmiyor",
    stack := some "trace", coerced := "" }

/-- A ValidationError-shaped object without a usable status field. -/
def errValidationW : ErrVal :=
  { isObj := true, status := none, name := "ValidationError",
    message := some "alan eksik", details := none, stack := some "trace",
    coerced := "" }

/-- A non-object thrown value (e.g. a thrown string). -/
def errNonObjW : ErrVal :=
  { isObj := false, status := none, name := "", message := none,
    details := none, stack := none, coerced := "patladı" }

/-- A stand-in verifier for witnesses: plaintext equality against the stored
string (the abstract `compare` parameter instantiated concretely). -/
def cmpW : String → String → Bool := fun p h => p == h

/-- A stored user row for witnesses. -/
def aliceW : User :=
  { id := 1, username := "alice", password := "secret123", email := "alice@example.com" }

/-- Server state holding exactly `aliceW` and no sessions. -/
def stW : AuthState := { users := [aliceW], sessions := [], nextSid := 0 }

/-- A login request with alice's correct credentials. -/
def reqGoodW : LoginRequest := { username := some "alice", password := some "secret123" }

/-- A login request with alice's username and a wrong password. -/
def reqBadPwW : LoginRequest := { username := some "alice", password := some "wrong" }

/-- A client state with a cached logged-in user. -/
def clientLoggedInW : ClientState := { user := some (snapshotOf aliceW) }

/-- A login request missing the password field. -/
def reqNoPwW : LoginRequest := { username := some "alice", password := none }

/-- Two user rows agree except possibly in the stored password hash. -/
def sameExceptHash (u1 u2 : User) : Prop :=
  u1.id = u2.id ∧ u1.username = u2.username ∧ u1.email = u2.email

/-- Alice's row with a different stored hash, for the confinement witness. -/
def aliceOtherHashW : User :=
  { id := 1, username := "alice", password := "otherhash",
    email := "alice@example.com" }

/-- A fixture session for the me endpoint. -/
def sessW : Session :=
  { sid := 0, user := snapshotOf aliceW, expiresAt := 5 + sessionMaxAgeMs }

/-- Server state holding `aliceW` and one live session `sessW`. -/
def stSessW : AuthState := { users := [aliceW], sessions := [sessW], nextSid := 1 }

/-! Theorems for the server-side auth operations. -/

/-- After destroying the session for a given identifier, its lookup is empty. -/
theorem sessionLookup_after_logout (now : Nat) (sid : Option Nat) (st : AuthState) :
    sessionLookup now sid (logout sid st).2 = none := by
  unfold sessionLookup logout
  simp only [Option.map_eq_none', List.find?_eq_none, List.mem_filter]
  intro s hs
  rcases hs with ⟨_, hkeep⟩
  simp only [Bool.not_eq_eq_eq_not, Bool.not_true] at hkeep
  simp [hkeep]

/-- C1: a login whose username matches a stored user and whose password
verifies answers 200 with the message and the `{id, username, email}`
snapshot of the row, persists a session holding that snapshot whose expiry
is the fixed 24-hour cookie maxAge past the current time, and allocates a
session identifier distinct from every stored one (freshness of the counter
is preserved, so successive successful calls yield distinct identifiers). -/
theorem C1_login_success (compare : String → String → Bool) (now : Nat)
    (req : LoginRequest) (st : AuthState) (u : User)
    (hfind : findUser req st = some u)
    (hpw : passwordMatches compare req u = true)
    (hfresh : ∀ s ∈ st.sessions, s.sid < st.nextSid) :
    (login compare now req st).1.status = 200 ∧
    (login compare now req st).1.message = some "Giriş başarılı" ∧
    (login compare now req st).1.user = some (snapshotOf u) ∧
    (login compare now req st).2.sessions =
      { sid := st.nextSid, user := snapshotOf u,
        expiresAt := now + sessionMaxAgeMs } :: st.sessions ∧
    sessionMaxAgeMs = 24 * 60 * 60 * 1000 ∧
    (∀ s ∈ st.sessions, s.sid ≠ st.nextSid) ∧
    (∀ s ∈ (login compare now req st).2.sessions,
        s.sid < (login compare now req st).2.nextSid) := by
  have h : login compare now req st =
      ({ status := 200, message := some "Giriş başarılı",
         user := some (snapshotOf u), error := none },
       { st with
           sessions := { sid := st.nextSid, user := snapshotOf u,
                         expiresAt := now + sessionMaxAgeMs } :: st.sessions,
           nextSid := st.nextSid + 1 }) := by
    unfold login
    rw [hfind]
    simp [hpw]
  rw [h]
  refine ⟨rfl, rfl, rfl, rfl, by decide, ?_, ?_⟩
  · intro s hs
    exact Nat.ne_of_lt (hfresh s hs)
  · intro s hs
    rcases List.mem_cons.mp hs with h1 | h1
    · rw [h1]
      exact Nat.lt_succ_self _
    · exact Nat.lt_succ_of_lt (hfresh s h1)

/-- C1 witness: alice logs in with her correct password from the fixture
state and every conclusion holds concretely. -/
theorem C1_login_success_witness :
    findUser reqGoodW stW = some aliceW ∧
    passwordMatches cmpW reqGoodW aliceW = true ∧
    ((login cmpW 5 reqGoodW stW).1.status = 200 ∧
     (login cmpW 5 reqGoodW stW).1.message = some "Giriş başarılı" ∧
     (login cmpW 5 reqGoodW stW).1.user = some (snapshotOf aliceW) ∧
     (login cmpW 5 reqGoodW stW).2.sessions =
       { sid := stW.nextSid, user := snapshotOf aliceW,
         expiresAt := 5 + sessionMaxAgeMs } :: stW.sessions ∧
     sessionMaxAgeMs = 24 * 60 * 60 * 1000 ∧
     (∀ s ∈ stW.sessions, s.sid ≠ stW.nextSid) ∧
     (∀ s ∈ (login cmpW 5 reqGoodW stW).2.sessions,
         s.sid < (login cmpW 5 reqGoodW stW).2.nextSid)) :=
  ⟨by decide, by decide,
   C1_login_success cmpW 5 reqGoodW stW aliceW (by decide) (by decide)
     (by intro s hs; simp [stW] at hs)⟩

/-- C2: a login whose username matches no stored user, or whose password
does not verify, answers 400 with the localized message distinguishing the
two cases ("Kullanıcı bulunamadı" vs "Şifre hatalı"), returns no user
snapshot, and leaves the server state — in particular the session store —
unchanged, so no session is created and no cookie is established. -/
theorem C2_login_invalid (compare : String → String → Bool) (now : Nat)
    (req : LoginRequest) (st : AuthState)
    (hp : Option.all (fun u => !passwordMatches compare req u) (findUser req st)
            = true) :
    (login compare now req st).1.status = 400 ∧
    (login compare now req st).1.user = none ∧
    (login compare now req st).2 = st ∧
    (findUser req st = none →
      (login compare now req st).1.message = some "Kullanıcı bulunamadı") ∧
    (∀ u, findUser req st = some u →
      (login compare now req st).1.message = some "Şifre hatalı") := by
  cases hfind : findUser req st with
  | none =>
      unfold login
      rw [hfind]
      refine ⟨rfl, rfl, rfl, fun _ => rfl, fun u hu => ?_⟩
      exact absurd hu (by simp)
  | some u =>
      rw [hfind] at hp
      simp only [Option.all_some, Bool.not_eq_true'] at hp
      unfold login
      rw [hfind]
      simp only [hp]
      refine ⟨rfl, rfl, rfl, fun hn => ?_, fun v hv => ?_⟩
      · exact absurd hn (by simp)
      · rfl

/-- C2 witness: alice with a wrong password gets 400 "Şifre hatalı" and the
state is unchanged; an unknown username gets 400 "Kullanıcı bulunamadı". -/
theorem C2_login_invalid_witness :
    Option.all (fun u => !passwordMatches cmpW reqBadPwW u) (findUser reqBadPwW stW)
      = true ∧
    ((login cmpW 5 reqBadPwW stW).1.status = 400 ∧
     (login cmpW 5 reqBadPwW stW).1.user = none ∧
     (login cmpW 5 reqBadPwW stW).2 = stW ∧
     (findUser reqBadPwW stW = none →
       (login cmpW 5 reqBadPwW stW).1.message = some "Kullanıcı bulunamadı") ∧
     (∀ u, findUser reqBadPwW stW = some u →
       (login cmpW 5 reqBadPwW stW).1.message = some "Şifre hatalı")) :=
  ⟨by decide, C2_login_invalid cmpW 5 reqBadPwW stW (by decide)⟩

/-- C3: the me endpoint answers 401 "Giriş yapılmamış" exactly when the
request's session resolves to no user (absent, destroyed or expired), and
otherwise 200 with the stored snapshot; a snapshot persisted by a successful
login is returned unchanged by me at any later time before the session's
expiry (me mutates no state, being a pure function of it). -/
theorem C3_me_endpoint (now : Nat) (sid : Option Nat) (st : AuthState) :
    (sessionLookup now sid st = none →
      me now sid st =
        { status := 401, message := some "Giriş yapılmamış",
          user := none, error := none }) ∧
    (∀ snap, sessionLookup now sid st = some snap →
      me now sid st =
        { status := 200, message := none, user := some snap, error := none }) ∧
    (∀ (compare : String → String → Bool) (req : LoginRequest) (u : User)
        (now2 : Nat),
      findUser req st = some u →
      passwordMatches compare req u = true →
      now2 < now + sessionMaxAgeMs →
      me now2 (some st.nextSid) (login compare now req st).2 =
        { status := 200, message := none,
          user := some (snapshotOf u), error := none }) := by
  refine ⟨?_, ?_, ?_⟩
  · intro hnone
    unfold me
    rw [hnone]
  · intro snap hsnap
    unfold me
    rw [hsnap]
  · intro compare req u now2 hfind hpw hlt
    have h : (login compare now req st).2 =
        { st with
            sessions := { sid := st.nextSid, user := snapshotOf u,
                          expiresAt := now + sessionMaxAgeMs } :: st.sessions,
            nextSid := st.nextSid + 1 } := by
      unfold login
      rw [hfind]
      simp [hpw]
    rw [h]
    unfold me sessionLookup
    simp [List.find?_cons, hlt]

/-- C3 witness: with no matching session me answers 401; with the stored
fixture session me answers 200 with the snapshot; after alice's login the
snapshot is still served just before expiry. -/
theorem C3_me_endpoint_witness :
    (sessionLookup 5 (some 7) stSessW = none ∧
     me 5 (some 7) stSessW =
       { status := 401, message := some "Giriş yapılmamış",
         user := none, error := none }) ∧
    (sessionLookup 5 (some 0) stSessW = some (snapshotOf aliceW) ∧
     me 5 (some 0) stSessW =
       { status := 200, message := none,
         user := some (snapshotOf aliceW), error := none }) ∧
    me 6 (some stW.nextSid) (login cmpW 5 reqGoodW stW).2 =
      { status := 200, message := none,
        user := some (snapshotOf aliceW), error := none } :=
  ⟨⟨by decide, (C3_me_endpoint 5 (some 7) stSessW).1 (by decide)⟩,
   ⟨by decide,
    (C3_me_endpoint 5 (some 0) stSessW).2.1 (snapshotOf aliceW) (by decide)⟩,
   (C3_me_endpoint 5 (some stW.nextSid) stW).2.2 cmpW reqGoodW aliceW 6
     (by decide) (by decide) (by decide)⟩

/-- C4: logout always answers 200 "Çıkış yapıldı" whether or not a session
exists, never an error; it is idempotent — a second logout with the same
identifier gives the same response and leaves the state of the first — and
me with that identifier afterwards answers 401 Unauthenticated. -/
theorem C4_logout_endpoint (now : Nat) (sid : Option Nat) (st : AuthState) :
    (logout sid st).1 =
      { status := 200, message := some "Çıkış yapıldı",
        user := none, error := none } ∧
    (logout sid (logout sid st).2).1 =
      { status := 200, message := some "Çıkış yapıldı",
        user := none, error := none } ∧
    (logout sid (logout sid st).2).2 = (logout sid st).2 ∧
    me now sid (logout sid st).2 =
      { status := 401, message := some "Giriş yapılmamış",
        user := none, error := none } := by
  refine ⟨rfl, rfl, ?_, ?_⟩
  · unfold logout
    simp [List.filter_filter]
  · unfold me
    rw [sessionLookup_after_logout]

/-- The response status is the status computed from the normalized error;
the details-attachment step never changes it. -/
theorem errorHandler_status_eq (e : ErrVal) :
    (errorHandler e).status = errStatusOf (normalizeErr e) := by
  unfold errorHandler
  dsimp only
  split
  · split
    · split <;> rfl
    · rfl
  · rfl

/-- The response message depends only on the computed status and the
normalized error's message field. -/
theorem errorHandler_message_eq (e : ErrVal) :
    (errorHandler e).message =
      (if 500 ≤ errStatusOf (normalizeErr e) then genericServerError
       else
         match (normalizeErr e).message with
         | some m => if m != "" then m else "İstek hatalı"
         | none => "İstek hatalı") := by
  unfold errorHandler
  dsimp only
  split
  · split
    · split <;> rfl
    · rfl
  · rfl

/-- C5 counterexample: the error object `errZeroStatus` carries the integer
status 0, yet the middleware responds with status 500, not 0 — the claim
that the status is `err.status` whenever it is an integer fails, because the
truthiness guard discards the integer 0. -/
theorem C5_status_zero_counterexample :
    errZeroStatus.status = some 0 ∧
    (errorHandler errZeroStatus).status = 500 ∧
    (errorHandler errZeroStatus).status ≠ 0 := by
  decide

/-- C5 (amended): the middleware answers a fixed-shape payload
`{status, message, details?}`: the status is `err.status` when that is a
truthy (nonzero) integer, else 400 for a validation-shaped error, else 500;
a non-object throw is normalized and answered 500 with the generic message;
any status at least 500 gets the fixed generic message; `details` appears
only for a 4xx status and only as the error's own nonempty details field;
and the response is independent of the stack, which never appears in it. -/
theorem C5_error_middleware (e : ErrVal) :
    (∀ s : Int, e.isObj = true → e.status = some s → s ≠ 0 →
        (errorHandler e).status = s) ∧
    (e.isObj = true → (e.status = none ∨ e.status = some 0) →
        (errorHandler e).status =
          (if e.name == "ValidationError" then 400 else 500)) ∧
    (e.isObj = false →
        errorHandler e =
          { status := 500, message := genericServerError, details := none }) ∧
    (500 ≤ (errorHandler e).status →
        (errorHandler e).message = genericServerError) ∧
    (∀ d, (errorHandler e).details = some d →
        400 ≤ (errorHandler e).status ∧ (errorHandler e).status < 500 ∧
        e.details = some d ∧ d ≠ "") ∧
    (∀ stk1 stk2 : Option String,
        errorHandler { e with stack := stk1 } =
          errorHandler { e with stack := stk2 }) := by
  refine ⟨?_, ?_, ?_, ?_, ?_, ?_⟩
  · intro s hobj hst hs
    rw [errorHandler_status_eq]
    unfold normalizeErr
    rw [hobj]
    unfold errStatusOf
    rw [if_pos rfl, hst]
    simp [hs]
  · intro hobj hst
    rw [errorHandler_status_eq]
    unfold normalizeErr
    rw [hobj]
    rw [if_pos rfl]
    unfold errStatusOf
    rcases hst with h | h <;> simp [h]
  · intro hobj
    have hn : normalizeErr e =
        { isObj := true, status := none, name := "Error", message := some e.coerced,
          details := none, stack := e.stack, coerced := e.coerced } := by
      unfold normalizeErr
      rw [hobj]
      simp
    unfold errorHandler
    rw [hn]
    rfl
  · intro h
    rw [errorHandler_status_eq] at h
    rw [errorHandler_message_eq, if_pos h]
  · intro d hd
    rw [errorHandler_status_eq]
    unfold errorHandler at hd
    dsimp only at hd
    split at hd
    · rename_i hrange
      split at hd
      · rename_i d2 hd2
        split at hd
        · rename_i hne
          have hdd : d2 = d := by simpa using hd
          subst hdd
          have hobj : e.isObj = true := by
            by_contra hfalse
            have hb : e.isObj = false := by
              cases hbv : e.isObj
              · rfl
              · exact absurd hbv hfalse
            unfold normalizeErr at hd2
            rw [hb] at hd2
            simp at hd2
          have he : normalizeErr e = e := by
            unfold normalizeErr
            rw [hobj]
            simp
          rw [he] at hd2 hrange ⊢
          refine ⟨hrange.1, hrange.2, hd2, ?_⟩
          simpa using hne
        · exact absurd hd (by simp)
      · exact absurd hd (by simp)
    · exact absurd hd (by simp)
  · intro stk1 stk2
    unfold errorHandler normalizeErr errStatusOf
    cases e.isObj <;> rfl

/-- C5 witness: the amended statement exercised concretely — a truthy
integer status is echoed, a status-less ValidationError maps to 400, a
thrown string maps to the generic 500 payload, the generic message
accompanies the 500, and the 404 error's details field rides along. -/
theorem C5_error_middleware_witness :
    (errorHandler errClientW).status = 404 ∧
    (errorHandler errValidationW).status =
      (if errValidationW.name == "ValidationError" then 400 else 500) ∧
    errorHandler errNonObjW =
      { status := 500, message := genericServerError, details := none } ∧
    (errorHandler errNonObjW).message = genericServerError ∧
    (400 ≤ (errorHandler errClientW).status ∧
     (errorHandler errClientW).status < 500 ∧
     errClientW.details = some "kimlik bilinmiyor" ∧ "kimlik bilinmiyor" ≠ "") :=
  ⟨(C5_error_middleware errClientW).1 404 rfl rfl (by decide),
   (C5_error_middleware errValidationW).2.1 rfl (Or.inl rfl),
   (C5_error_middleware errNonObjW).2.2.1 rfl,
   (C5_error_middleware errNonObjW).2.2.2.1 (by decide),
   (C5_error_middleware errClientW).2.2.2.2.1 "kimlik bilinmiyor" (by decide)⟩

/-- C6 counterexample: with a failing logout network call and a cached
logged-in user, the cached user is NOT cleared — `await logoutUser()`
rethrows before `setUser(null)` runs — refuting the claim that the cached
user is cleared unconditionally regardless of network outcome. -/
theorem C6_failed_logout_counterexample :
    (clientLogout (Except.error netErrW) clientLoggedInW).2.user
      = some (snapshotOf aliceW) ∧
    some (snapshotOf aliceW) ≠ (none : Option UserSnapshot) := by
  decide

/-- C6 (amended): the client logout clears the cached user exactly when the
network call succeeds; when it fails, the `describeError` rejection
propagates to the caller and the cached user is left unchanged. -/
theorem C6_client_logout (st : ClientState) :
    (∀ a, clientLogout (Except.ok a) st = (none, { st with user := none })) ∧
    (∀ e, clientLogout (Except.error e) st =
        (some (describeError e "logout"), st)) := by
  exact ⟨fun a => rfl, fun e => rfl⟩

/-- C7: when the on-mount fetch of the current user fails (for any network
error, including a 401 response), the cached user ends up absent — it is
never set — and the rejection is discarded by the mount effect, so no error
reaches the rest of the application, whose only observation is the
resulting state. -/
theorem C7_mount_failure (e : NetErr) :
    onMount (Except.error e) = clientInit ∧
    (onMount (Except.error e)).user = none ∧
    (fetchUser (Except.error e) clientInit).2 = clientInit := by
  exact ⟨rfl, rfl, rfl⟩

/-- The user lookup issued with a missing username matches no row. -/
theorem findUser_none_of_no_username (req : LoginRequest) (st : AuthState)
    (h : req.username = none) : findUser req st = none := by
  unfold findUser
  rw [List.find?_eq_none]
  intro u _
  simp [h]

/-- C8: a login request missing the username or the password field is not
validated up front — login always issues the user lookup first; a missing
username matches no row, a missing password never verifies, and in either
case the request resolves through the InvalidCredentials 400 path with the
state unchanged, never through a dedicated validation error. -/
theorem C8_no_input_validation (compare : String → String → Bool) (now : Nat)
    (req : LoginRequest) (st : AuthState)
    (hmiss : req.username = none ∨ req.password = none) :
    (req.username = none → findUser req st = none) ∧
    (login compare now req st).1.status = 400 ∧
    (login compare now req st).2 = st ∧
    ((login compare now req st).1.message = some "Kullanıcı bulunamadı" ∨
     (login compare now req st).1.message = some "Şifre hatalı") := by
  refine ⟨findUser_none_of_no_username req st, ?_⟩
  rcases hmiss with h | h
  · have hf := findUser_none_of_no_username req st h
    unfold login
    rw [hf]
    exact ⟨rfl, rfl, Or.inl rfl⟩
  · cases hfind : findUser req st with
    | none =>
        unfold login
        rw [hfind]
        exact ⟨rfl, rfl, Or.inl rfl⟩
    | some u =>
        have hpm : passwordMatches compare req u = false := by
          unfold passwordMatches
          rw [h]
        unfold login
        rw [hfind]
        simp only [hpm, Bool.false_eq_true, if_false]
        exact ⟨trivial, trivial, Or.inr trivial⟩

/-- C8 witness: alice's username with a missing password resolves through
the 400 "Şifre hatalı" branch with the state unchanged. -/
theorem C8_no_input_validation_witness :
    (reqNoPwW.username = none ∨ reqNoPwW.password = none) ∧
    ((reqNoPwW.username = none → findUser reqNoPwW stW = none) ∧
     (login cmpW 5 reqNoPwW stW).1.status = 400 ∧
     (login cmpW 5 reqNoPwW stW).2 = stW ∧
     ((login cmpW 5 reqNoPwW stW).1.message = some "Kullanıcı bulunamadı" ∨
      (login cmpW 5 reqNoPwW stW).1.message = some "Şifre hatalı")) :=
  ⟨Or.inr rfl, C8_no_input_validation cmpW 5 reqNoPwW stW (Or.inr rfl)⟩

/-- Rows agreeing outside the hash column produce the same snapshot. -/
theorem snapshotOf_eq_of_sameExceptHash {u1 u2 : User}
    (h : sameExceptHash u1 u2) : snapshotOf u1 = snapshotOf u2 := by
  unfold snapshotOf
  rw [h.1, h.2.1, h.2.2]

/-- The username lookup, run over two tables that agree outside the hash
column (and on the verification outcome), either misses in both or finds
related rows in both. -/
theorem find?_username_hash_indep (compare : String → String → Bool)
    (req : LoginRequest) :
    ∀ {l1 l2 : List User},
      List.Forall₂ (fun u1 u2 => sameExceptHash u1 u2 ∧
        passwordMatches compare req u1 = passwordMatches compare req u2) l1 l2 →
      (l1.find? (fun u => req.username == some u.username) = none ∧
       l2.find? (fun u => req.username == some u.username) = none) ∨
      (∃ u1 u2,
        l1.find? (fun u => req.username == some u.username) = some u1 ∧
        l2.find? (fun u => req.username == some u.username) = some u2 ∧
        sameExceptHash u1 u2 ∧
        passwordMatches compare req u1 = passwordMatches compare req u2) := by
  intro l1 l2 h
  induction h with
  | nil => exact Or.inl ⟨rfl, rfl⟩
  | cons hR hrest ih =>
      rename_i a b l1' l2'
      cases hp : (req.username == some a.username) with
      | true =>
          have hpb : (req.username == some b.username) = true := by
            rw [← hR.1.2.1]
            exact hp
          exact Or.inr ⟨a, b, List.find?_cons_of_pos _ hp,
            List.find?_cons_of_pos _ hpb, hR.1, hR.2⟩
      | false =>
          have hpb : (req.username == some b.username) = false := by
            rw [← hR.1.2.1]
            exact hp
          have e1 : (a :: l1').find? (fun u => req.username == some u.username) =
              l1'.find? (fun u => req.username == some u.username) :=
            List.find?_cons_of_neg _ (by simp [hp])
          have e2 : (b :: l2').find? (fun u => req.username == some u.username) =
              l2'.find? (fun u => req.username == some u.username) :=
            List.find?_cons_of_neg _ (by simp [hpb])
          rcases ih with ⟨h1, h2⟩ | ⟨u1, u2, h1, h2, h3, h4⟩
          · exact Or.inl ⟨by rw [e1]; exact h1, by rw [e2]; exact h2⟩
          · exact Or.inr ⟨u1, u2, by rw [e1]; exact h1, by rw [e2]; exact h2, h3, h4⟩

/-- C9: the stored password hash never reaches a response. Over two user
tables agreeing in id, username and email (and on the verifier's outcome
for the submitted password) but arbitrary in the hash column, login gives
identical responses and identical session stores; me and logout do not read
the users table at all; and any user object login returns is exactly the
`{id, username, email}` snapshot of a stored row — a shape with no password
field. -/
theorem C9_password_hash_confinement (compare : String → String → Bool)
    (now : Nat) (req : LoginRequest) (users1 users2 : List User)
    (sessions : List Session) (nextSid : Nat)
    (hrel : List.Forall₂ (fun u1 u2 => sameExceptHash u1 u2 ∧
      passwordMatches compare req u1 = passwordMatches compare req u2)
      users1 users2) :
    (login compare now req ⟨users1, sessions, nextSid⟩).1 =
      (login compare now req ⟨users2, sessions, nextSid⟩).1 ∧
    (login compare now req ⟨users1, sessions, nextSid⟩).2.sessions =
      (login compare now req ⟨users2, sessions, nextSid⟩).2.sessions ∧
    (∀ sid, me now sid ⟨users1, sessions, nextSid⟩ =
        me now sid ⟨users2, sessions, nextSid⟩) ∧
    (∀ sid, (logout sid ⟨users1, sessions, nextSid⟩).1 =
        (logout sid ⟨users2, sessions, nextSid⟩).1 ∧
      (logout sid ⟨users1, sessions, nextSid⟩).2.sessions =
        (logout sid ⟨users2, sessions, nextSid⟩).2.sessions) ∧
    (∀ snap,
      (login compare now req ⟨users1, sessions, nextSid⟩).1.user = some snap →
        ∃ u, u ∈ users1 ∧ snap = snapshotOf u) := by
  have hfind := find?_username_hash_indep compare req hrel
  have hmain : (login compare now req ⟨users1, sessions, nextSid⟩).1 =
      (login compare now req ⟨users2, sessions, nextSid⟩).1 ∧
      (login compare now req ⟨users1, sessions, nextSid⟩).2.sessions =
      (login compare now req ⟨users2, sessions, nextSid⟩).2.sessions := by
    rcases hfind with ⟨h1, h2⟩ | ⟨u1, u2, h1, h2, hsame, hpm⟩
    · unfold login
      rw [show findUser req ⟨users1, sessions, nextSid⟩ = none from h1,
          show findUser req ⟨users2, sessions, nextSid⟩ = none from h2]
      exact ⟨rfl, rfl⟩
    · unfold login
      rw [show findUser req ⟨users1, sessions, nextSid⟩ = some u1 from h1,
          show findUser req ⟨users2, sessions, nextSid⟩ = some u2 from h2]
      dsimp only
      rw [hpm, snapshotOf_eq_of_sameExceptHash hsame]
      by_cases hm : passwordMatches compare req u2 = true
      · simp only [if_pos hm]
        exact ⟨trivial, trivial⟩
      · simp only [if_neg hm]
        exact ⟨trivial, trivial⟩
  have huser : ∀ snap,
      (login compare now req ⟨users1, sessions, nextSid⟩).1.user = some snap →
        ∃ u, u ∈ users1 ∧ snap = snapshotOf u := by
    intro snap hsnap
    cases hf : findUser req ⟨users1, sessions, nextSid⟩ with
    | none =>
        unfold login at hsnap
        rw [hf] at hsnap
        exact absurd hsnap (by simp)
    | some u =>
        unfold login at hsnap
        rw [hf] at hsnap
        dsimp only at hsnap
        by_cases hm : passwordMatches compare req u = true
        · rw [if_pos hm] at hsnap
          have h2 : some (snapshotOf u) = some snap := hsnap
          exact ⟨u, List.mem_of_find?_eq_some hf, (Option.some.inj h2).symm⟩
        · rw [if_neg hm] at hsnap
          exact absurd hsnap (by simp)
  exact ⟨hmain.1, hmain.2, fun sid => rfl, fun sid => ⟨rfl, rfl⟩, huser⟩

/-- C9 witness: alice's row with two different stored hashes and a
non-verifying password — the endpoints cannot tell the tables apart, and
the returned user object is a stored row's snapshot. -/
theorem C9_password_hash_confinement_witness :
    List.Forall₂ (fun u1 u2 => sameExceptHash u1 u2 ∧
      passwordMatches cmpW reqBadPwW u1 = passwordMatches cmpW reqBadPwW u2)
      [aliceW] [aliceOtherHashW] ∧
    ((login cmpW 5 reqBadPwW ⟨[aliceW], [], 0⟩).1 =
      (login cmpW 5 reqBadPwW ⟨[aliceOtherHashW], [], 0⟩).1 ∧
    (login cmpW 5 reqBadPwW ⟨[aliceW], [], 0⟩).2.sessions =
      (login cmpW 5 reqBadPwW ⟨[aliceOtherHashW], [], 0⟩).2.sessions ∧
    (∀ sid, me 5 sid ⟨[aliceW], [], 0⟩ = me 5 sid ⟨[aliceOtherHashW], [], 0⟩) ∧
    (∀ sid, (logout sid ⟨[aliceW], [], 0⟩).1 =
        (logout sid ⟨[aliceOtherHashW], [], 0⟩).1 ∧
      (logout sid ⟨[aliceW], [], 0⟩).2.sessions =
        (logout sid ⟨[aliceOtherHashW], [], 0⟩).2.sessions) ∧
    (∀ snap, (login cmpW 5 reqBadPwW ⟨[aliceW], [], 0⟩).1.user = some snap →
        ∃ u, u ∈ [aliceW] ∧ snap = snapshotOf u)) := by
  have hrel : List.Forall₂ (fun u1 u2 => sameExceptHash u1 u2 ∧
      passwordMatches cmpW reqBadPwW u1 = passwordMatches cmpW reqBadPwW u2)
      [aliceW] [aliceOtherHashW] :=
    List.Forall₂.cons ⟨⟨rfl, rfl, rfl⟩, by decide⟩ List.Forall₂.nil
  exact ⟨hrel,
    C9_password_hash_confinement cmpW 5 reqBadPwW [aliceW] [aliceOtherHashW]
      [] 0 hrel⟩

/-- C10: the client API module addresses `http://localhost:5000/auth` for
login, logout and me, but the defensive server mounts the auth router only
at `/api/auth`; each of the three client requests therefore matches neither
the mount point nor the health check and falls through to the 404 handler's
`{error: "Endpoint bulunamadı"}` response, never reaching the auth
handlers. -/
theorem C10_client_requests_hit_404 :
    clientRequests.map (fun r => urlPath r.url) =
      ["/auth/login", "/auth/logout", "/auth/me"] ∧
    clientRequests.map (fun r => defensiveDispatch r.method (urlPath r.url)) =
      [Dispatch.notFound, Dispatch.notFound, Dispatch.notFound] ∧
    notFoundResponse =
      { status := 404, message := none, user := none,
        error := some "Endpoint bulunamadı" } := by
  exact ⟨by decide, by decide, rfl⟩

end UniLife
